import Mathlib

/-!
Verification development for the dealer-fraud MCP server
(`mvp_dealer_fraud_mcp.py`): a shallow embedding of the CNPJ checksum
validator, the JSON-record normalization pipeline of the four checks, the
consolidation of `comprehensive_check`, and the consolidated risk
aggregation `_analyze_consolidated_risk`, together with theorems about
them.
-/

namespace DealerFraud

/-- Values of the Python/JSON data model used by the check records:
`None`, booleans, integers, strings, lists, and string-keyed dicts
(modelled as ordered association lists, matching Python's
insertion-ordered dicts). -/
inductive PyVal where
  | none : PyVal
  | bool : Bool → PyVal
  | int : Int → PyVal
  | str : String → PyVal
  | list : List PyVal → PyVal
  | dict : List (String × PyVal) → PyVal

/-- Python `d[k]` read on an (insertion-ordered, unique-key) dict:
the value of the first entry with key `k`, if any. -/
def alGet (d : List (String × PyVal)) (k : String) : Option PyVal :=
  match d with
  | [] => Option.none
  | (k₁, v₁) :: rest => if k₁ = k then some v₁ else alGet rest k

/-- Python `d.get(k, dflt)`. -/
def pyGetD (d : List (String × PyVal)) (k : String) (dflt : PyVal) : PyVal :=
  (alGet d k).getD dflt

/-- Python `d[k] = v`: update the entry in place when the key is present,
append at the end otherwise. -/
def alSet (d : List (String × PyVal)) (k : String) (v : PyVal) :
    List (String × PyVal) :=
  match d with
  | [] => [(k, v)]
  | (k₁, v₁) :: rest =>
      if k₁ = k then (k, v) :: rest else (k₁, v₁) :: alSet rest k v

/-- Python `x == s` for a string literal `s`: true exactly when `x` is the
equal string (cross-type `==` against a `str` is `False` in Python). -/
def isStrEq (v : PyVal) (s : String) : Bool :=
  match v with
  | .str t => t == s
  | _ => false

/-- Python `.get(...)` attribute access on a value expected to be a dict:
raises `AttributeError` on any non-dict value. -/
def asDict (v : PyVal) : Except String (List (String × PyVal)) :=
  match v with
  | .dict d => .ok d
  | _ => .error "AttributeError"

/-- Python `data[k]` on a dict value: `KeyError` when the key is absent. -/
def pyIndex (d : List (String × PyVal)) (k : String) : Except String PyVal :=
  match alGet d k with
  | some v => .ok v
  | Option.none => .error "KeyError"

/- ## The CNPJ checksum validator (`_validate_cnpj`) -/

/-- `re.sub(r'\D', '', cnpj)` followed by `int(...)` on each character:
the digit values of the digit characters of the input, in order. -/
def cnpjDigits (cnpj : String) : List Nat :=
  (cnpj.data.filter Char.isDigit).map (fun c => c.toNat - 48)

/-- Python `len(set(cnpj)) == 1` for a nonempty string: all characters
equal (`false` on the empty list, where `len(set(...))` is `0`). -/
def allSameDigits (ds : List Nat) : Bool :=
  match ds with
  | [] => false
  | d :: rest => rest.all (fun e => e == d)

/-- Weights for the first CNPJ check digit (`weights1`). -/
def weights1 : List Nat := [5, 4, 3, 2, 9, 8, 7, 6, 5, 4, 3, 2]

/-- Weights for the second CNPJ check digit (`weights2`). -/
def weights2 : List Nat := [6, 5, 4, 3, 2, 9, 8, 7, 6, 5, 4, 3, 2]

/-- One mod-11 check digit: weight the digits, sum, take
`11 - (sum % 11)`, and map results `≥ 10` to `0`. -/
def checkDigit (ds ws : List Nat) : Nat :=
  let s := ((ds.zip ws).map (fun p => p.1 * p.2)).sum
  let d := 11 - s % 11
  if d ≥ 10 then 0 else d

/-- `DealerFraudChecker._validate_cnpj`: strip non-digits, require 14
digits, reject all-equal digits, then check both mod-11 check digits. -/
def validateCnpj (cnpj : String) : Bool :=
  let ds := cnpjDigits cnpj
  if ds.length ≠ 14 then false
  else if allSameDigits ds then false
  else
    let d1 := checkDigit (ds.take 12) weights1
    let d2 := checkDigit (ds.take 13) weights2
    ds.getD 12 0 == d1 && ds.getD 13 0 == d2

/-- `DealerFraudChecker._format_cnpj`: strip non-digits and group a
14-digit identifier as `XX.XXX.XXX/XXXX-XX`; return the stripped digits
unchanged otherwise. -/
def formatCnpj (cnpj : String) : String :=
  let ds := cnpj.data.filter Char.isDigit
  if ds.length = 14 then
    String.mk (ds.take 2) ++ "." ++ String.mk ((ds.drop 2).take 3) ++ "." ++
      String.mk ((ds.drop 5).take 3) ++ "/" ++ String.mk ((ds.drop 8).take 4) ++
      "-" ++ String.mk (ds.drop 12)
  else String.mk ds

/- ## Python `int(str)` parsing (used on `reputation_score`) -/

/-- Digit-and-underscore run as accepted by Python `int`: underscores only
single and followed by a digit; every other character a digit. -/
def digitRun : List Char → Bool
  | [] => true
  | ['_'] => false
  | '_' :: '_' :: _ => false
  | '_' :: c :: rest => c.isDigit && digitRun (c :: rest)
  | c :: rest => c.isDigit && digitRun rest

/-- A valid unsigned body for Python `int`: nonempty, starting with a
digit, and a well-formed digit-and-underscore run. -/
def intBody (t : List Char) : Bool :=
  match t with
  | [] => false
  | c :: _ => c.isDigit && digitRun t

/-- Numeric value of a digit string (underscores removed). -/
def natOfDigits (t : List Char) : Nat :=
  t.foldl (fun a c => a * 10 + (c.toNat - 48)) 0

/-- Python `int(s)` for a string: strip whitespace, optional sign, then a
digit run with optional single underscores; `Option.none` models the
`ValueError` raised on any other input. -/
def pyInt (s : String) : Option Int :=
  let t1 := s.data.dropWhile Char.isWhitespace
  let t := (t1.reverse.dropWhile Char.isWhitespace).reverse
  match t with
  | '+' :: r =>
      if intBody r then some ((natOfDigits (r.filter (fun c => c ≠ '_')) : Nat) : Int)
      else Option.none
  | '-' :: r =>
      if intBody r then some (-((natOfDigits (r.filter (fun c => c ≠ '_')) : Nat) : Int))
      else Option.none
  | r =>
      if intBody r then some ((natOfDigits (r.filter (fun c => c ≠ '_')) : Nat) : Int)
      else Option.none

/- ## Consolidated risk analysis (`_analyze_consolidated_risk`) -/

/-- The registration-status signal condition (lines 743-747):
`cnpj_data.get("company_data", {}).get("situacao_cadastral") != "ATIVA"`.
Each `.get` on a non-dict raises `AttributeError`; a missing
`company_data` defaults to the empty dict, whose `situacao_cadastral`
lookup yields `None`, which differs from `"ATIVA"`. -/
def regSignal (checks : List (String × PyVal)) : Except String Bool :=
  match asDict (pyGetD checks "cnpj_status" (.dict [])) with
  | .error e => .error e
  | .ok cnpjData =>
      match asDict (pyGetD cnpjData "company_data" (.dict [])) with
      | .error e => .error e
      | .ok companyData =>
          .ok (!(isStrEq (pyGetD companyData "situacao_cadastral" PyVal.none) "ATIVA"))

/-- The reputation signal condition (lines 749-758): fires when
`reputation_score` is a string that `int(...)` parses to a value below 50;
`ValueError`/`TypeError` from the parse is swallowed (`no signal`). -/
def repSignal (checks : List (String × PyVal)) : Except String Bool :=
  match asDict (pyGetD checks "reputation" (.dict [])) with
  | .error e => .error e
  | .ok repData =>
      match pyGetD repData "reputation_score" PyVal.none with
      | .str s =>
          match pyInt s with
          | some n => .ok (decide (n < 50))
          | Option.none => .ok false
      | _ => .ok false

/-- The legal signal condition (lines 760-763):
`legal_data.get("risk_level") in ["ALTO", "CRÍTICO"]`. -/
def legalSignal (checks : List (String × PyVal)) : Except String Bool :=
  match asDict (pyGetD checks "legal_issues" (.dict [])) with
  | .error e => .error e
  | .ok legalData =>
      let rl := pyGetD legalData "risk_level" PyVal.none
      .ok (isStrEq rl "ALTO" || isStrEq rl "CRÍTICO")

/-- The score/factor accumulation of `_analyze_consolidated_risk`
(lines 739-763), evaluated in the fixed order registration, reputation,
legal: each firing signal adds its weight and appends its factor. -/
def rawRisk (checks : List (String × PyVal)) :
    Except String (Nat × List String) :=
  match regSignal checks with
  | .error e => .error e
  | .ok r =>
      match repSignal checks with
      | .error e => .error e
      | .ok p =>
          match legalSignal checks with
          | .error e => .error e
          | .ok l =>
              .ok ((if r then 50 else 0) + (if p then 30 else 0) + (if l then 40 else 0),
                (if r then ["Situação cadastral irregular"] else []) ++
                (if p then ["Baixa reputação online"] else []) ++
                (if l then ["Problemas legais graves"] else []))

/-- The tier classification if-chain (lines 766-778), applied to the
accumulated (unclamped) score: the risk level and its recommendation. -/
def classifyRisk (riskScore : Nat) : String × String :=
  if riskScore ≥ 80 then
    ("CRÍTICO", "🚫 EVITAR - Não recomendamos fazer negócios com este lojista")
  else if riskScore ≥ 50 then
    ("ALTO", "🚨 CUIDADO - Investigar mais profundamente antes de negociar")
  else if riskScore ≥ 25 then
    ("MÉDIO", "⚠️ CAUTELA - Prosseguir com verificações adicionais")
  else
    ("BAIXO", "✅ APARENTEMENTE SEGURO - Prosseguir com cautela normal")

/-- `DealerFraudChecker._get_next_steps`: static per-tier next-step lists. -/
def getNextSteps (riskLevel : String) : List String :=
  if riskLevel = "CRÍTICO" then
    ["Evitar qualquer negociação",
     "Procurar outros lojistas",
     "Se já houve negociação, consultar advogado"]
  else if riskLevel = "ALTO" then
    ["Solicitar documentação adicional",
     "Verificar credenciamento em órgãos do setor",
     "Visitar fisicamente o estabelecimento",
     "Consultar outros clientes recentes"]
  else if riskLevel = "MÉDIO" then
    ["Verificar documentos do veículo cuidadosamente",
     "Pedir referências de outros clientes",
     "Fazer vistoria técnica independente",
     "Negociar garantias adicionais"]
  else
    ["Verificar documentação padrão",
     "Fazer test drive completo",
     "Confirmar procedência do veículo",
     "Manter cautela normal na compra"]

/-- The returned risk-analysis record of `_analyze_consolidated_risk`. -/
structure RiskAssessment where
  risk_score : Nat
  risk_level : String
  risk_factors : List String
  recommendation : String
  next_steps : List String
  deriving DecidableEq

/-- `DealerFraudChecker._analyze_consolidated_risk`: read
`data["checks_performed"]`, accumulate the three signals, classify the
tier on the unclamped score, and return the assessment with the score
clamped by `min(risk_score, 100)`.  `Except.error` models an uncaught
Python exception. -/
def analyzeConsolidatedRisk (data : List (String × PyVal)) :
    Except String RiskAssessment :=
  match pyIndex data "checks_performed" with
  | .error e => .error e
  | .ok checksVal =>
      match asDict checksVal with
      | .error e => .error e
      | .ok checks =>
          match rawRisk checks with
          | .error e => .error e
          | .ok (score, factors) =>
              let lr := classifyRisk score
              .ok ⟨min score 100, lr.1, factors, lr.2, getNextSteps lr.1⟩

/-- The `consolidated` dict built by `comprehensive_check` (lines 717-729)
from the four task results, before the risk analysis is attached: a task
that ended in an exception is embedded as `{"error": str(e)}`. -/
def embedResult (r : Sum String (List (String × PyVal))) : PyVal :=
  match r with
  | .inl e => .dict [("error", .str e)]
  | .inr rec => .dict rec

/-- Convert a `RiskAssessment` back to a `PyVal` record, as returned by
`_analyze_consolidated_risk`. -/
def riskToPyVal (r : RiskAssessment) : PyVal :=
  .dict [("risk_score", .int r.risk_score),
         ("risk_level", .str r.risk_level),
         ("risk_factors", .list (r.risk_factors.map PyVal.str)),
         ("recommendation", .str r.recommendation),
         ("next_steps", .list (r.next_steps.map PyVal.str))]

/-- A value for Python's optional `company_name` argument. -/
def optStr (s : Option String) : PyVal :=
  match s with
  | some t => .str t
  | Option.none => PyVal.none

/-- `DealerFraudChecker.comprehensive_check` after the four tasks have
settled: the early-return on an invalid identifier, the `consolidated`
dict with the four embedded task results, and the attached
`risk_analysis`. -/
def comprehensiveConsolidate (cnpj : String) (companyName : Option String)
    (analysisDate : String) (r0 r1 r2 r3 : Sum String (List (String × PyVal))) :
    Except String (List (String × PyVal)) :=
  if validateCnpj cnpj = false then
    .ok [("error", .str "CNPJ inválido"),
         ("cnpj_provided", .str cnpj),
         ("status", .str "error")]
  else
    let consolidated : List (String × PyVal) :=
      [("cnpj", .str (formatCnpj cnpj)),
       ("company_name", optStr companyName),
       ("analysis_date", .str analysisDate),
       ("checks_performed", .dict
         [("cnpj_status", embedResult r0),
          ("reputation", embedResult r1),
          ("legal_issues", embedResult r2),
          ("business_images", embedResult r3)])]
    match analyzeConsolidatedRisk consolidated with
    | .error e => .error e
    | .ok risk => .ok (alSet consolidated "risk_analysis" (riskToPyVal risk))

/- ## Response extraction and record normalization -/

/-- Index of the first occurrence of `needle` in `hay`
(Python `str.find`, `some`-valued). -/
def findInfix (needle hay : List Char) : Option Nat :=
  if needle.isPrefixOf hay then some 0
  else
    match hay with
    | [] => Option.none
    | _ :: t => (findInfix needle t).map (fun i => i + 1)

/-- Python `s.find(pat, start)`: index of the first occurrence at or after
`start`, `-1` when absent. -/
def pyFindFrom (s pat : List Char) (start : Nat) : Int :=
  match findInfix pat (s.drop start) with
  | some i => ((start + i : Nat) : Int)
  | Option.none => -1

/-- Python slice `s[start:stop]` for a nonnegative `start` and a possibly
negative `stop` (negative indices count from the end). -/
def pySlice (s : List Char) (start : Nat) (stop : Int) : List Char :=
  let n : Int := s.length
  let stop₁ : Int := if stop < 0 then max (stop + n) 0 else min stop n
  (s.take stop₁.toNat).drop start

/-- Python `str.strip()`: drop whitespace from both ends. -/
def pyStrip (s : List Char) : List Char :=
  ((s.dropWhile Char.isWhitespace).reverse.dropWhile Char.isWhitespace).reverse

/-- `DealerFraudChecker._extract_json_from_response`: when the response
contains a fenced block opened by three backticks and `json`, return the
stripped text between the fence markers; otherwise return the whole
response stripped.  The result is always a string. -/
def extractJsonFromResponse (response : String) : String :=
  let s := response.data
  match findInfix "```json".data s with
  | some i =>
      let start := i + 7
      let stop := pyFindFrom s "```".data start
      String.mk (pyStrip (pySlice s start stop))
  | Option.none => String.mk (pyStrip s)

/-- The per-field normalization loop of `_validate_json_response`:
`None` values become `"N/A"`, every other value is kept (the list branch
of the conditional expression is unreachable, since the value is `None`
there, and an empty list is replaced by an empty list). -/
def normalizeVal (v : PyVal) : PyVal :=
  match v with
  | PyVal.none => .str "N/A"
  | v => v

/-- `DealerFraudChecker._validate_json_response`: force
`status = "success"`, fill `query_date` with the current timestamp when
absent, and normalize every field value. -/
def validateJsonResponse (d : List (String × PyVal)) (now : String) :
    List (String × PyVal) :=
  (alSet (alSet d "status" (.str "success")) "query_date"
    (pyGetD (alSet d "status" (.str "success")) "query_date" (.str now))).map
    (fun p => (p.1, normalizeVal p.2))

/- ## The four check pipelines, after the web request has settled

Each model takes the JSON parser (`json.loads` restricted to top-level
values, `Option.none` for a parse failure) as an explicit function, and
the request outcome: `Sum.inl e` when the awaited request raised an
exception `e` (caught by the outer `except Exception`), `Sum.inr text`
when it returned response text. -/

/-- The record built by the reputation and legal pipelines from the parse
result (their parse-and-normalize code is identical in the source): parse
failure (`json.JSONDecodeError`) degrades to `success_text` with the raw
response preserved; a parsed non-dict raises `TypeError` at the
`json_data["status"]` assignment, which the outer handler converts to an
error record; a parsed dict is normalized. -/
def parsedTextRecord (fc : String) (companyName : Option String)
    (result : String) (parsed : Option PyVal) (now : String) :
    List (String × PyVal) :=
  match parsed with
  | some (.dict d) => validateJsonResponse d now
  | some _ =>
      [("cnpj", .str fc), ("error", .str "TypeError"),
       ("status", .str "error"), ("query_date", .str now)]
  | Option.none =>
      [("cnpj", .str fc), ("company_name", optStr companyName),
       ("raw_response", .str result),
       ("status", .str "success_text"), ("query_date", .str now)]

/-- The record built by the registration-status pipeline from the parse
result: as `parsedTextRecord`, but stamping `cnpj_valid = true` before
normalization and carrying `cnpj_valid` on the degraded records. -/
def parsedStatusRecord (fc : String) (result : String) (parsed : Option PyVal)
    (now : String) : List (String × PyVal) :=
  match parsed with
  | some (.dict d) => validateJsonResponse (alSet d "cnpj_valid" (.bool true)) now
  | some _ =>
      [("cnpj", .str fc), ("cnpj_valid", .bool true), ("error", .str "TypeError"),
       ("status", .str "error"), ("query_date", .str now)]
  | Option.none =>
      [("cnpj", .str fc), ("cnpj_valid", .bool true),
       ("raw_response", .str result),
       ("status", .str "success_text"), ("query_date", .str now)]

/-- `DealerFraudChecker.check_dealer_reputation` after the request. -/
def checkDealerReputation (jp : String → Option PyVal) (cnpj : String)
    (companyName : Option String) (outcome : Sum String String)
    (now : String) : List (String × PyVal) :=
  if validateCnpj cnpj = false then
    [("error", .str "CNPJ inválido"),
     ("cnpj_provided", .str cnpj),
     ("status", .str "error")]
  else
    match outcome with
    | .inl e =>
        [("cnpj", .str (formatCnpj cnpj)), ("error", .str e),
         ("status", .str "error"), ("query_date", .str now)]
    | .inr result =>
        parsedTextRecord (formatCnpj cnpj) companyName result
          (jp (extractJsonFromResponse result)) now

/-- `DealerFraudChecker.check_legal_issues` after the request: the same
record pipeline as the reputation check. -/
def checkLegalIssues (jp : String → Option PyVal) (cnpj : String)
    (companyName : Option String) (outcome : Sum String String)
    (now : String) : List (String × PyVal) :=
  if validateCnpj cnpj = false then
    [("error", .str "CNPJ inválido"),
     ("cnpj_provided", .str cnpj),
     ("status", .str "error")]
  else
    match outcome with
    | .inl e =>
        [("cnpj", .str (formatCnpj cnpj)), ("error", .str e),
         ("status", .str "error"), ("query_date", .str now)]
    | .inr result =>
        parsedTextRecord (formatCnpj cnpj) companyName result
          (jp (extractJsonFromResponse result)) now

/-- `DealerFraudChecker.verify_cnpj_status` after the request. -/
def verifyCnpjStatus (jp : String → Option PyVal) (cnpj : String)
    (outcome : Sum String String) (now : String) : List (String × PyVal) :=
  if validateCnpj cnpj = false then
    [("error", .str "CNPJ inválido"),
     ("cnpj_provided", .str cnpj),
     ("cnpj_valid", .bool false),
     ("status", .str "error")]
  else
    match outcome with
    | .inl e =>
        [("cnpj", .str (formatCnpj cnpj)), ("cnpj_valid", .bool true), ("error", .str e),
         ("status", .str "error"), ("query_date", .str now)]
    | .inr result =>
        parsedStatusRecord (formatCnpj cnpj) result
          (jp (extractJsonFromResponse result)) now

/-- Python `company_name or "N/A"`: `"N/A"` for `None` and for the empty
string (both falsy). -/
def orNA (s : Option String) : String :=
  match s with
  | some t => if t = "" then "N/A" else t
  | Option.none => "N/A"

/-- An all-placeholder image record of the degraded fallback. -/
def placeholderImage : PyVal :=
  .dict [("url", .str "N/A"), ("description", .str "N/A"),
         ("source", .str "N/A"), ("verified", .bool false)]

/-- The rich degraded-fallback record of `search_business_images`
(lines 661-687): every sub-field a placeholder, status
`partial_success`, and the raw response preserved (truncated to 500
characters plus an ellipsis when longer). -/
def imagesFallbackRecord (fc : String) (companyName : Option String)
    (responseText : String) (now : String) : List (String × PyVal) :=
  let rawResp :=
    if responseText.data.length > 500 then String.mk (responseText.data.take 500) ++ "..."
    else responseText
  [("status", .str "partial_success"),
   ("cnpj", .str fc),
   ("company_name", .str (orNA companyName)),
   ("business_images", .dict
     [("facade", placeholderImage), ("logo", placeholderImage),
      ("interior", placeholderImage), ("staff", placeholderImage),
      ("vehicles", placeholderImage), ("location", placeholderImage)]),
   ("image_analysis", .dict
     [("total_images_found", .int 0),
      ("verified_images", .int 0),
      ("legitimacy_indicators", .list []),
      ("red_flags", .list [.str "Não foi possível encontrar imagens"]),
      ("visual_consistency", .str "N/A"),
      ("business_appearance", .str "N/A")]),
   ("social_media_presence", .dict
     [("instagram", .dict
       [("url", .str "N/A"), ("followers", .str "N/A"),
        ("posts", .str "N/A"), ("recent_activity", .str "N/A")]),
      ("facebook", .dict
       [("url", .str "N/A"), ("likes", .str "N/A"),
        ("reviews", .str "N/A"), ("recent_activity", .str "N/A")])]),
   ("raw_response", .str rawResp),
   ("query_date", .str now)]

/-- `DealerFraudChecker.search_business_images` after the request.  The
source never parses the extracted text: `result` is the string returned by
`_extract_json_from_response`, so `isinstance(result, dict)` is `False`
for every response and `not result or not isinstance(result, dict)` is
always true — the fallback record is always returned on the non-exception
path, and the trailing `return result` is unreachable. -/
def searchBusinessImages (cnpj : String) (companyName : Option String)
    (outcome : Sum String String) (now : String) : List (String × PyVal) :=
  if validateCnpj cnpj = false then
    [("error", .str "CNPJ inválido"),
     ("cnpj_provided", .str cnpj),
     ("status", .str "error")]
  else
    let fc := formatCnpj cnpj
    match outcome with
    | .inl e =>
        [("error", .str e), ("status", .str "error"), ("query_date", .str now)]
    | .inr responseText =>
        imagesFallbackRecord fc companyName responseText now

/- ## Concrete aggregation inputs -/

/-- The `data` dict shape consumed by `_analyze_consolidated_risk`, as
built by `comprehensive_check`: the four check records under
`checks_performed`. -/
def mkData (c r l i : PyVal) : List (String × PyVal) :=
  [("checks_performed", .dict
    [("cnpj_status", c), ("reputation", r),
     ("legal_issues", l), ("business_images", i)])]

/-- Aggregation input of claim C1: a registration record with no
`company_data` field, reputation score the string `"30"`, legal risk
level `"ALTO"`. -/
def c1Input : List (String × PyVal) :=
  mkData
    (.dict [("cnpj", .str "11.222.333/0001-81"), ("cnpj_valid", .bool true),
            ("status", .str "success"), ("query_date", .str "T")])
    (.dict [("reputation_score", .str "30"),
            ("status", .str "success"), ("query_date", .str "T")])
    (.dict [("risk_level", .str "ALTO"),
            ("status", .str "success"), ("query_date", .str "T")])
    (.dict [("status", .str "partial_success"), ("query_date", .str "T")])

/-- Aggregation input of claim C2: a registration record lacking any
`company_data` key, and no other signal present. -/
def c2Input : List (String × PyVal) :=
  mkData (.dict [("status", .str "success_text")]) (.dict []) (.dict []) (.dict [])

/-- Aggregation input of claim C4: the four entries are mappings whose
values are strings, but `company_data` is a string rather than a nested
mapping. -/
def c4Input : List (String × PyVal) :=
  mkData (.dict [("company_data", .str "N/A")]) (.dict []) (.dict []) (.dict [])

/-- The checks dict making all three signals fire: nested `company_data`
present with a non-active status, reputation score `"30"`, legal risk
level `"ALTO"`. -/
def allSignalsChecks : List (String × PyVal) :=
  [("cnpj_status", .dict [("company_data", .dict [("situacao_cadastral", .str "BAIXADA")])]),
   ("reputation", .dict [("reputation_score", .str "30")]),
   ("legal_issues", .dict [("risk_level", .str "ALTO")]),
   ("business_images", .dict [])]

/-- Aggregation input whose three signals all fire (50 + 30 + 40 = 120). -/
def allSignalsInput : List (String × PyVal) :=
  [("checks_performed", .dict allSignalsChecks)]

/- ## Claims C1, C2 (registration signal on a record without company data) -/

/-- Claim C1, counterexample: on the C1 input (no nested `company_data`),
`_analyze_consolidated_risk` does not return score 70, level `"ALTO"` and
two factors — the registration signal also fires (a missing
`company_data` defaults to `{}`, whose `situacao_cadastral` is `None` and
differs from `"ATIVA"`), so the result is score 100, level `"CRÍTICO"`,
and three factors. -/
theorem claim1_counterexample :
    (analyzeConsolidatedRisk c1Input).toOption.map
        (fun r => (r.risk_score, r.risk_level, r.risk_factors)) =
      some (100, "CRÍTICO",
        ["Situação cadastral irregular", "Baixa reputação online",
         "Problemas legais graves"]) ∧
    ¬ ((analyzeConsolidatedRisk c1Input).toOption.map
        (fun r => (r.risk_score, r.risk_level, r.risk_factors.length)) =
      some (70, "ALTO", 2)) := by
  exact ⟨by decide, by decide⟩

/-- Claim C1, amended: on the C1 input, `_analyze_consolidated_risk`
returns risk score exactly 100, risk level `"CRÍTICO"`, and three risk
factors in the order registration, reputation, legal, with the critical
recommendation and next steps. -/
theorem claim1_amended :
    analyzeConsolidatedRisk c1Input =
      .ok ⟨100, "CRÍTICO",
        ["Situação cadastral irregular", "Baixa reputação online",
         "Problemas legais graves"],
        "🚫 EVITAR - Não recomendamos fazer negócios com este lojista",
        ["Evitar qualquer negociação", "Procurar outros lojistas",
         "Se já houve negociação, consultar advogado"]⟩ := by
  rfl

/-- Claim C2, counterexample: a registration record lacking any
`company_data` key contributes 50 (and the registration factor), not 0:
on the C2 input, where no other signal can fire, the score is 50 with the
registration factor as the only entry. -/
theorem claim2_counterexample :
    (analyzeConsolidatedRisk c2Input).toOption.map
        (fun r => (r.risk_score, r.risk_factors)) =
      some (50, ["Situação cadastral irregular"]) ∧
    ¬ ((analyzeConsolidatedRisk c2Input).toOption.map
        (fun r => (r.risk_score, r.risk_factors)) =
      some (0, [])) := by
  exact ⟨by decide, by decide⟩

/-- Claim C2, amended: the registration signal fires exactly when looking
up `company_data` (defaulting to the empty mapping when the key is
absent) and then its situational field (defaulting to `None`) yields any
value other than the string `"ATIVA"`; in particular, a registration
record lacking any `company_data` key makes the signal fire, contributing
50 rather than 0. -/
theorem claim2_amended (checks c cd : List (String × PyVal))
    (h₁ : pyGetD checks "cnpj_status" (.dict []) = .dict c)
    (h₂ : pyGetD c "company_data" (.dict []) = .dict cd) :
    regSignal checks =
      .ok (!(isStrEq (pyGetD cd "situacao_cadastral" PyVal.none) "ATIVA")) ∧
    (alGet c "company_data" = Option.none → regSignal checks = .ok true) := by
  have hmain : regSignal checks =
      .ok (!(isStrEq (pyGetD cd "situacao_cadastral" PyVal.none) "ATIVA")) := by
    simp [regSignal, h₁, h₂, asDict, Except.bind, Except.map]
  refine ⟨hmain, fun h₃ => ?_⟩
  have hd : pyGetD c "company_data" (.dict []) = .dict [] := by
    simp [pyGetD, h₃]
  rw [hd] at h₂
  cases h₂
  simpa [pyGetD, alGet, isStrEq] using hmain

/-- Claim C2, witness: the amended statement instantiated at the C2
checks dict, whose registration record has no `company_data` key. -/
theorem claim2_witness :
    (pyGetD [("cnpj_status", PyVal.dict [("status", PyVal.str "success_text")]),
             ("reputation", PyVal.dict []), ("legal_issues", PyVal.dict []),
             ("business_images", PyVal.dict [])]
        "cnpj_status" (.dict []) = .dict [("status", PyVal.str "success_text")]) ∧
    (pyGetD [("status", PyVal.str "success_text")] "company_data" (.dict []) = .dict []) ∧
    (regSignal [("cnpj_status", PyVal.dict [("status", PyVal.str "success_text")]),
                ("reputation", PyVal.dict []), ("legal_issues", PyVal.dict []),
                ("business_images", PyVal.dict [])] =
      .ok (!(isStrEq (pyGetD ([] : List (String × PyVal)) "situacao_cadastral" PyVal.none) "ATIVA")) ∧
     (alGet [("status", PyVal.str "success_text")] "company_data" = Option.none →
      regSignal [("cnpj_status", PyVal.dict [("status", PyVal.str "success_text")]),
                 ("reputation", PyVal.dict []), ("legal_issues", PyVal.dict []),
                 ("business_images", PyVal.dict [])] = .ok true)) := by
  exact ⟨rfl, rfl, claim2_amended _ _ [] rfl rfl⟩

/- ## Claims C6, C7 (tier thresholds, checksum validator) -/

/-- Claim C6: tier classification is exact at the thresholds — an
accumulated score of 24 classifies as `"BAIXO"`, 25 as `"MÉDIO"`, 50 as
`"ALTO"`, and 80 as `"CRÍTICO"`, each with its tier recommendation. -/
theorem claim6_thresholds :
    classifyRisk 24 =
      ("BAIXO", "✅ APARENTEMENTE SEGURO - Prosseguir com cautela normal") ∧
    classifyRisk 25 =
      ("MÉDIO", "⚠️ CAUTELA - Prosseguir com verificações adicionais") ∧
    classifyRisk 50 =
      ("ALTO", "🚨 CUIDADO - Investigar mais profundamente antes de negociar") ∧
    classifyRisk 80 =
      ("CRÍTICO", "🚫 EVITAR - Não recomendamos fazer negócios com este lojista") := by
  exact ⟨by decide, by decide, by decide, by decide⟩

/-- Claim C7: the checksum validator accepts the known valid identifier
`"11.222.333/0001-81"` and rejects `"11.222.333/0001-80"`, the same
identifier with its last digit altered. -/
theorem claim7_checksum :
    validateCnpj "11.222.333/0001-81" = true ∧
    validateCnpj "11.222.333/0001-80" = false := by
  exact ⟨by decide, by decide⟩

/- ## Claim C4 (aggregation failure semantics) -/

mutual

/-- Membership of a value in the CheckRecord value class: a string, a
number, a list of strings, or a nested mapping of such values. -/
def validVal : PyVal → Bool
  | .int _ => true
  | .str _ => true
  | .list xs => xs.all (fun v => match v with | .str _ => true | _ => false)
  | .dict d => validFields d
  | _ => false

/-- Membership of a record in the CheckRecord class: every field value in
the CheckRecord value class. -/
def validFields : List (String × PyVal) → Bool
  | [] => true
  | (_, v) :: rest => validVal v && validFields rest

end

/-- The legal signal never raises once the legal record is a mapping. -/
theorem legalSignal_ok (checks l : List (String × PyVal))
    (h : pyGetD checks "legal_issues" (.dict []) = .dict l) :
    ∃ b, legalSignal checks = .ok b := by
  exact ⟨isStrEq (pyGetD l "risk_level" PyVal.none) "ALTO" ||
         isStrEq (pyGetD l "risk_level" PyVal.none) "CRÍTICO",
    by simp [legalSignal, h, asDict]⟩

/-- The registration signal never raises once the registration record and
its `company_data` field are mappings. -/
theorem regSignal_ok (checks c cd : List (String × PyVal))
    (h₁ : pyGetD checks "cnpj_status" (.dict []) = .dict c)
    (h₂ : pyGetD c "company_data" (.dict []) = .dict cd) :
    ∃ b, regSignal checks = .ok b := by
  exact ⟨!(isStrEq (pyGetD cd "situacao_cadastral" PyVal.none) "ATIVA"),
    by simp [regSignal, h₁, h₂, asDict]⟩

/-- The reputation signal never raises once the reputation record is a
mapping: any malformed `reputation_score` is treated as no signal. -/
theorem repSignal_ok (checks r : List (String × PyVal))
    (h : pyGetD checks "reputation" (.dict []) = .dict r) :
    ∃ b, repSignal checks = .ok b := by
  rcases hv : pyGetD r "reputation_score" PyVal.none with _ | b | n | s | xs | d
  · exact ⟨false, by simp [repSignal, h, asDict, hv]⟩
  · exact ⟨false, by simp [repSignal, h, asDict, hv]⟩
  · exact ⟨false, by simp [repSignal, h, asDict, hv]⟩
  · rcases hp : pyInt s with _ | n
    · exact ⟨false, by simp [repSignal, h, asDict, hv, hp]⟩
    · exact ⟨decide (n < 50), by simp [repSignal, h, asDict, hv, hp]⟩
  · exact ⟨false, by simp [repSignal, h, asDict, hv]⟩
  · exact ⟨false, by simp [repSignal, h, asDict, hv]⟩

/-- The tier computed by the classification if-chain is always one of the
four levels. -/
theorem classifyRisk_mem (n : Nat) :
    (classifyRisk n).1 ∈ (["BAIXO", "MÉDIO", "ALTO", "CRÍTICO"] : List String) := by
  unfold classifyRisk
  split
  · simp
  · split
    · simp
    · split <;> simp

/-- Claim C4, counterexample: the C4 input lies in the CheckRecord class
of the claim (its four entries are mappings whose values are strings),
`company_data` holds the string `"N/A"`, and `_analyze_consolidated_risk`
raises `AttributeError` on it (the `.get` chain is applied to a
non-dict), rather than treating the malformed field as no signal. -/
theorem claim4_counterexample :
    validFields [("company_data", PyVal.str "N/A")] = true ∧
    validFields ([] : List (String × PyVal)) = true ∧
    analyzeConsolidatedRisk c4Input = .error "AttributeError" := by
  exact ⟨rfl, rfl, rfl⟩

/-- When the checks dict is reachable and the signal accumulation
succeeds, `_analyze_consolidated_risk` returns the assessment built from
the clamped score and the tier classification of the unclamped score. -/
theorem analyze_ok_of_raw (data cp : List (String × PyVal)) (s : Nat) (fs : List String)
    (h₁ : pyIndex data "checks_performed" = .ok (.dict cp))
    (h₂ : rawRisk cp = .ok (s, fs)) :
    analyzeConsolidatedRisk data =
      .ok ⟨min s 100, (classifyRisk s).1, fs, (classifyRisk s).2,
        getNextSteps (classifyRisk s).1⟩ := by
  unfold analyzeConsolidatedRisk
  rw [h₁]
  show (match rawRisk cp with
        | .error e => Except.error e
        | .ok (score, factors) =>
            let lr := classifyRisk score
            Except.ok (⟨min score 100, lr.1, factors, lr.2,
              getNextSteps lr.1⟩ : RiskAssessment)) =
      Except.ok ⟨min s 100, (classifyRisk s).1, fs, (classifyRisk s).2,
        getNextSteps (classifyRisk s).1⟩
  rw [h₂]

/-- Claim C4, amended: `_analyze_consolidated_risk` never raises and
returns a well-formed `RiskAssessment` (score at most 100, one of the
four tiers) for every input whose four entries are mappings, provided
additionally that the registration record's `company_data` field, when
present, is itself a mapping; a non-mapping `company_data` is the one
malformed field that raises rather than counting as no signal. -/
theorem claim4_amended (c r l i cd : List (String × PyVal))
    (h : pyGetD c "company_data" (.dict []) = .dict cd) :
    ∃ ra, analyzeConsolidatedRisk (mkData (.dict c) (.dict r) (.dict l) (.dict i)) = .ok ra ∧
      ra.risk_score ≤ 100 ∧
      ra.risk_level ∈ (["BAIXO", "MÉDIO", "ALTO", "CRÍTICO"] : List String) := by
  obtain ⟨b₁, hb₁⟩ := regSignal_ok
    [("cnpj_status", PyVal.dict c), ("reputation", PyVal.dict r),
     ("legal_issues", PyVal.dict l), ("business_images", PyVal.dict i)] c cd rfl h
  obtain ⟨b₂, hb₂⟩ := repSignal_ok
    [("cnpj_status", PyVal.dict c), ("reputation", PyVal.dict r),
     ("legal_issues", PyVal.dict l), ("business_images", PyVal.dict i)] r rfl
  obtain ⟨b₃, hb₃⟩ := legalSignal_ok
    [("cnpj_status", PyVal.dict c), ("reputation", PyVal.dict r),
     ("legal_issues", PyVal.dict l), ("business_images", PyVal.dict i)] l rfl
  have hraw : rawRisk
      [("cnpj_status", PyVal.dict c), ("reputation", PyVal.dict r),
       ("legal_issues", PyVal.dict l), ("business_images", PyVal.dict i)] =
      .ok ((if b₁ then 50 else 0) + (if b₂ then 30 else 0) + (if b₃ then 40 else 0),
        (if b₁ then ["Situação cadastral irregular"] else []) ++
        (if b₂ then ["Baixa reputação online"] else []) ++
        (if b₃ then ["Problemas legais graves"] else [])) := by
    simp [rawRisk, hb₁, hb₂, hb₃]
  exact ⟨_, analyze_ok_of_raw _ _ _ _ rfl hraw, Nat.min_le_right _ _, classifyRisk_mem _⟩

/-- Claim C4, witness: the amended statement instantiated at four empty
records (whose `company_data` lookup defaults to the empty mapping). -/
theorem claim4_witness :
    (pyGetD ([] : List (String × PyVal)) "company_data" (.dict []) = .dict []) ∧
    (∃ ra, analyzeConsolidatedRisk
        (mkData (.dict []) (.dict []) (.dict []) (.dict [])) = .ok ra ∧
      ra.risk_score ≤ 100 ∧
      ra.risk_level ∈ (["BAIXO", "MÉDIO", "ALTO", "CRÍTICO"] : List String)) := by
  exact ⟨rfl, claim4_amended [] [] [] [] [] rfl⟩

/- ## Claim C5 (score clamp) -/

/-- Claim C5: for every aggregation input on which the signal
accumulation yields a sum, the returned `risk_score` is exactly
`min(sum, 100)` and therefore never exceeds 100. -/
theorem claim5_clamp (data cp : List (String × PyVal)) (s : Nat) (fs : List String)
    (h₁ : pyIndex data "checks_performed" = .ok (.dict cp))
    (h₂ : rawRisk cp = .ok (s, fs)) :
    ∃ ra, analyzeConsolidatedRisk data = .ok ra ∧
      ra.risk_score = min s 100 ∧ ra.risk_score ≤ 100 := by
  exact ⟨⟨min s 100, (classifyRisk s).1, fs, (classifyRisk s).2,
    getNextSteps (classifyRisk s).1⟩, analyze_ok_of_raw data cp s fs h₁ h₂, rfl,
    Nat.min_le_right _ _⟩

/-- Claim C5, witness: the input on which all three signals fire
(registration 50 + reputation 30 + legal 40 = 120) yields a final
`risk_score` of `min 120 100 = 100`, never higher. -/
theorem claim5_witness :
    (pyIndex allSignalsInput "checks_performed" = .ok (.dict allSignalsChecks)) ∧
    (rawRisk allSignalsChecks =
      .ok (120, ["Situação cadastral irregular", "Baixa reputação online",
                 "Problemas legais graves"])) ∧
    (∃ ra, analyzeConsolidatedRisk allSignalsInput = .ok ra ∧
      ra.risk_score = min 120 100 ∧ ra.risk_score ≤ 100) ∧
    min 120 100 = 100 := by
  exact ⟨rfl, rfl,
    claim5_clamp allSignalsInput allSignalsChecks 120
      ["Situação cadastral irregular", "Baixa reputação online", "Problemas legais graves"]
      rfl rfl,
    by decide⟩

/- ## Claim C8 (all-identical digits) -/

/-- Claim C8: every 14-character string of one repeated digit fails
validation, even when its digits would satisfy the checksum equations,
because the all-identical-digits rejection precedes the checksum. -/
theorem claim8_all_same (c : Char) (h : c.isDigit = true) :
    validateCnpj (String.mk (List.replicate 14 c)) = false := by
  simp [validateCnpj, cnpjDigits, allSameDigits, List.replicate, h]

/-- Claim C8, witness: the all-zeros identifier (whose digits satisfy
both checksum equations) is rejected. -/
theorem claim8_witness :
    ('0'.isDigit = true) ∧ validateCnpj (String.mk (List.replicate 14 '0')) = false := by
  exact ⟨by decide, claim8_all_same '0' (by decide)⟩

/- ## Claim C10 (numeric reputation scores never fire the signal) -/

/-- Reputation record storing the score as a number (30), not a string. -/
def repNumericRec : List (String × PyVal) := [("reputation_score", .int 30)]

/-- Checks dict whose reputation record stores a numeric score. -/
def repNumericChecks : List (String × PyVal) := [("reputation", .dict repNumericRec)]

/-- Claim C10: when `reputation_score` is stored as a number the 30-point
reputation signal does not fire (even for values below 50), and the
signal fires only when `reputation_score` is a string that `int(...)`
parses to a value below 50. -/
theorem claim10_numeric_score (checks rep : List (String × PyVal))
    (h : pyGetD checks "reputation" (.dict []) = .dict rep) :
    (∀ n : Int, pyGetD rep "reputation_score" PyVal.none = .int n →
      repSignal checks = .ok false) ∧
    (repSignal checks = .ok true →
      ∃ s n, pyGetD rep "reputation_score" PyVal.none = .str s ∧
        pyInt s = some n ∧ n < 50) := by
  constructor
  · intro n hn
    simp [repSignal, h, asDict, hn]
  · intro hfire
    rcases hv : pyGetD rep "reputation_score" PyVal.none with _ | b | n | s | xs | d
    · simp [repSignal, h, asDict, hv] at hfire
    · simp [repSignal, h, asDict, hv] at hfire
    · simp [repSignal, h, asDict, hv] at hfire
    · rcases hp : pyInt s with _ | n
      · simp [repSignal, h, asDict, hv, hp] at hfire
      · have hn : n < 50 := by simpa [repSignal, h, asDict, hv, hp] using hfire
        exact ⟨s, n, rfl, hp, hn⟩
    · simp [repSignal, h, asDict, hv] at hfire
    · simp [repSignal, h, asDict, hv] at hfire

/-- Claim C10, witness: with `reputation_score` stored as the number 30
(below 50), the reputation signal still reports no signal. -/
theorem claim10_witness :
    (pyGetD repNumericChecks "reputation" (.dict []) = .dict repNumericRec) ∧
    ((∀ n : Int, pyGetD repNumericRec "reputation_score" PyVal.none = .int n →
        repSignal repNumericChecks = .ok false) ∧
     (repSignal repNumericChecks = .ok true →
        ∃ s n, pyGetD repNumericRec "reputation_score" PyVal.none = .str s ∧
          pyInt s = some n ∧ n < 50)) := by
  exact ⟨rfl, claim10_numeric_score repNumericChecks repNumericRec rfl⟩

/- ## Claim C3 (visual-presence fallback is unconditional) -/

/-- A response text that is itself a complete JSON object (no markdown
fences, no surrounding whitespace): extraction returns it unchanged and
it parses as a JSON dict. -/
def c3Response : String :=
  "\x7b\"status\": \"success\", \"cnpj\": \"11.222.333/0001-81\"\x7d"

/-- Claim C3: in `search_business_images` the extracted value is the
string returned by `_extract_json_from_response` — `json.loads` is never
called — so `isinstance(result, dict)` is `False` for every response and
the rich degraded-fallback template is returned even for a response from
which a JSON object is extractable: on `c3Response` (a complete JSON
object, returned unchanged by extraction) the result is still the
`partial_success` fallback rather than the parsed record. -/
theorem claim3_fallback_always :
    extractJsonFromResponse c3Response = c3Response ∧
    alGet (searchBusinessImages "11.222.333/0001-81" Option.none
      (Sum.inr c3Response) "T") "status" = some (.str "partial_success") ∧
    searchBusinessImages "11.222.333/0001-81" Option.none (Sum.inr c3Response) "T" =
      imagesFallbackRecord "11.222.333/0001-81" Option.none c3Response "T" := by
  exact ⟨rfl, rfl, rfl⟩

/- ## Claim C9 (status and timestamp invariants of embedded records) -/

/-- A minimal check record carrying the `status` and `query_date`
markers. -/
def okRecord : List (String × PyVal) :=
  [("status", .str "success"), ("query_date", .str "T")]

/-- A consolidated result in which the registration-status task ended in
an exception (the string `"boom"`). -/
def c9Consolidated : Except String (List (String × PyVal)) :=
  comprehensiveConsolidate "11.222.333/0001-81" Option.none "T"
    (.inl "boom") (.inr okRecord) (.inr okRecord) (.inr okRecord)

/-- The check record embedded under `checks_performed` of a consolidated
result, for one check kind. -/
def embeddedCheck (x : Except String (List (String × PyVal))) (kind : String) :
    Option PyVal :=
  match x with
  | .ok d =>
      match alGet d "checks_performed" with
      | some (.dict cp) => alGet cp kind
      | _ => Option.none
  | .error _ => Option.none

/-- Claim C9, counterexample: in the consolidated result of a
comprehensive check whose registration-status task ended in an exception,
the embedded `cnpj_status` record is exactly `{"error": "boom"}` — it
carries neither a `status` field nor a `query_date` field. -/
theorem claim9_counterexample :
    embeddedCheck c9Consolidated "cnpj_status" = some (.dict [("error", .str "boom")]) ∧
    alGet [("error", PyVal.str "boom")] "status" = Option.none ∧
    alGet [("error", PyVal.str "boom")] "query_date" = Option.none := by
  exact ⟨rfl, rfl, rfl⟩

/-- A record has a `status` field with one of the four documented values
and has a `query_date` field. -/
def wellTagged (d : List (String × PyVal)) : Prop :=
  (∃ s, alGet d "status" = some (.str s) ∧
    s ∈ (["success", "success_text", "error", "partial_success"] : List String)) ∧
  (alGet d "query_date").isSome = true

/-- Looking up the key just written by `alSet` yields the new value. -/
theorem alGet_alSet_self (d : List (String × PyVal)) (k : String) (v : PyVal) :
    alGet (alSet d k v) k = some v := by
  induction d with
  | nil => simp [alSet, alGet]
  | cons p rest ih =>
      obtain ⟨k₁, v₁⟩ := p
      by_cases hk : k₁ = k
      · simp [alSet, hk, alGet]
      · simp [alSet, hk, alGet, ih]

/-- `alSet` on a different key does not change a lookup. -/
theorem alGet_alSet_ne (d : List (String × PyVal)) (k k₁ : String) (v : PyVal)
    (h : k ≠ k₁) : alGet (alSet d k₁ v) k = alGet d k := by
  induction d with
  | nil => simp [alSet, alGet, Ne.symm h]
  | cons p rest ih =>
      obtain ⟨k₂, v₂⟩ := p
      by_cases hk : k₂ = k₁
      · simp [alSet, hk, alGet, Ne.symm h]
      · simp [alSet, hk, alGet, ih]

/-- Lookup commutes with the per-field normalization map. -/
theorem alGet_map_normalize (d : List (String × PyVal)) (k : String) :
    alGet (d.map (fun p => (p.1, normalizeVal p.2))) k = (alGet d k).map normalizeVal := by
  induction d with
  | nil => simp [alGet]
  | cons p rest ih =>
      obtain ⟨k₁, v₁⟩ := p
      by_cases hk : k₁ = k
      · simp [alGet, hk]
      · simp [alGet, hk, ih]

/-- Every record normalized by `_validate_json_response` carries
`status = "success"` and a `query_date`. -/
theorem validateJsonResponse_wellTagged (d : List (String × PyVal)) (now : String) :
    wellTagged (validateJsonResponse d now) := by
  constructor
  · refine ⟨"success", ?_, by decide⟩
    have h₁ : alGet (alSet (alSet d "status" (.str "success")) "query_date"
        (pyGetD (alSet d "status" (.str "success")) "query_date" (.str now))) "status" =
        some (.str "success") := by
      rw [alGet_alSet_ne _ _ _ _ (by decide)]
      exact alGet_alSet_self _ _ _
    unfold validateJsonResponse
    rw [alGet_map_normalize, h₁]
    rfl
  · have h₂ : alGet (alSet (alSet d "status" (.str "success")) "query_date"
        (pyGetD (alSet d "status" (.str "success")) "query_date" (.str now))) "query_date" =
        some (pyGetD (alSet d "status" (.str "success")) "query_date" (.str now)) :=
      alGet_alSet_self _ _ _
    unfold validateJsonResponse
    rw [alGet_map_normalize, h₂]
    rfl

/-- Every record built by the reputation/legal parse pipeline is
well-tagged, whatever the parse result. -/
theorem parsedTextRecord_wellTagged (fc : String) (cn : Option String)
    (result : String) (parsed : Option PyVal) (now : String) :
    wellTagged (parsedTextRecord fc cn result parsed now) := by
  rcases parsed with _ | v
  · exact ⟨⟨"success_text", rfl, by decide⟩, rfl⟩
  · rcases v with _ | b | n | s | xs | dd
    · exact ⟨⟨"error", rfl, by decide⟩, rfl⟩
    · exact ⟨⟨"error", rfl, by decide⟩, rfl⟩
    · exact ⟨⟨"error", rfl, by decide⟩, rfl⟩
    · exact ⟨⟨"error", rfl, by decide⟩, rfl⟩
    · exact ⟨⟨"error", rfl, by decide⟩, rfl⟩
    · exact validateJsonResponse_wellTagged dd now

/-- Every record built by the registration-status parse pipeline is
well-tagged, whatever the parse result. -/
theorem parsedStatusRecord_wellTagged (fc : String)
    (result : String) (parsed : Option PyVal) (now : String) :
    wellTagged (parsedStatusRecord fc result parsed now) := by
  rcases parsed with _ | v
  · exact ⟨⟨"success_text", rfl, by decide⟩, rfl⟩
  · rcases v with _ | b | n | s | xs | dd
    · exact ⟨⟨"error", rfl, by decide⟩, rfl⟩
    · exact ⟨⟨"error", rfl, by decide⟩, rfl⟩
    · exact ⟨⟨"error", rfl, by decide⟩, rfl⟩
    · exact ⟨⟨"error", rfl, by decide⟩, rfl⟩
    · exact ⟨⟨"error", rfl, by decide⟩, rfl⟩
    · exact validateJsonResponse_wellTagged (alSet dd "cnpj_valid" (.bool true)) now

/-- Claim C9, amended: every check record produced by the four check
pipelines for a valid identifier carries a `status` field equal to one of
`"success"`, `"success_text"`, `"error"`, `"partial_success"` and a
`query_date` field, whatever the parser and the request outcome; but the
record `comprehensive_check` embeds for a task that ended in an exception
is the bare `{"error": str(e)}`, which carries neither field. -/
theorem claim9_amended (jp : String → Option PyVal) (cnpj : String) (cn : Option String)
    (outcome : Sum String String) (now : String) (h : validateCnpj cnpj = true) :
    wellTagged (checkDealerReputation jp cnpj cn outcome now) ∧
    wellTagged (checkLegalIssues jp cnpj cn outcome now) ∧
    wellTagged (verifyCnpjStatus jp cnpj outcome now) ∧
    wellTagged (searchBusinessImages cnpj cn outcome now) ∧
    (∀ e, embedResult (.inl e) = .dict [("error", .str e)]) := by
  refine ⟨?_, ?_, ?_, ?_, fun e => rfl⟩
  · unfold checkDealerReputation
    rw [h]
    simp only [Bool.true_eq_false, if_false]
    rcases outcome with e | result
    · exact ⟨⟨"error", rfl, by decide⟩, rfl⟩
    · exact parsedTextRecord_wellTagged _ _ _ _ _
  · unfold checkLegalIssues
    rw [h]
    simp only [Bool.true_eq_false, if_false]
    rcases outcome with e | result
    · exact ⟨⟨"error", rfl, by decide⟩, rfl⟩
    · exact parsedTextRecord_wellTagged _ _ _ _ _
  · unfold verifyCnpjStatus
    rw [h]
    simp only [Bool.true_eq_false, if_false]
    rcases outcome with e | result
    · exact ⟨⟨"error", rfl, by decide⟩, rfl⟩
    · exact parsedStatusRecord_wellTagged _ _ _ _
  · unfold searchBusinessImages
    rw [h]
    simp only [Bool.true_eq_false, if_false]
    rcases outcome with e | result
    · exact ⟨⟨"error", rfl, by decide⟩, rfl⟩
    · exact ⟨⟨"partial_success", rfl, by decide⟩, rfl⟩

/-- Claim C9, witness: the amended statement instantiated at a valid
identifier, a parser that always fails, and a plain response text. -/
theorem claim9_witness :
    (validateCnpj "11.222.333/0001-81" = true) ∧
    (wellTagged (checkDealerReputation (fun _ => Option.none) "11.222.333/0001-81"
        Option.none (Sum.inr "x") "T") ∧
     wellTagged (checkLegalIssues (fun _ => Option.none) "11.222.333/0001-81"
        Option.none (Sum.inr "x") "T") ∧
     wellTagged (verifyCnpjStatus (fun _ => Option.none) "11.222.333/0001-81"
        (Sum.inr "x") "T") ∧
     wellTagged (searchBusinessImages "11.222.333/0001-81" Option.none
        (Sum.inr "x") "T") ∧
     (∀ e, embedResult (.inl e) = .dict [("error", .str e)])) := by
  exact ⟨by decide,
    claim9_amended (fun _ => Option.none) "11.222.333/0001-81" Option.none
      (Sum.inr "x") "T" (by decide)⟩

end DealerFraud
